import Mathlib

/-!
Shallow embedding of `src/main.rs` of the tickpay fake payment-acquirer
service: invoice data model, idempotent creation handler, the deferred
webhook-dispatcher task body, and the lookup handler.

Modelling conventions:
* `Uuid` values are represented by `Nat`; `Uuid::new_v4()` is made explicit
  as a `freshId` argument of `create_invoice` (uniqueness of v4 ids becomes
  a freshness hypothesis where a claim needs it).
* `DateTime<Utc>` timestamps are represented by `Nat`, passed explicitly.
* The two `DashMap`s are association lists with insert-at-front semantics;
  `List.lookup` returns the most recent binding, which matches overwrite
  semantics of `DashMap::insert`.
* `serde_json::Value` is the inductive `Json`; its serializer mirrors
  serde's compact output.
* The spawned tokio task is reified as a `DispatchTask` value recording the
  closure's captures; the task body is the function `runDispatch`.
-/

namespace TickPay

/-- `InvoiceStatus` from main.rs (serde snake_case). -/
inductive InvoiceStatus
  | created
  | paid
  | failed
  | canceled
  | expired
  | chargeback
deriving DecidableEq, Repr

/-- `EmitStatus` from main.rs: the caller-chosen terminal status. -/
inductive EmitStatus
  | paid
  | failed
  | canceled
  | expired
  | chargeback
deriving DecidableEq, Repr

/-- Model of `serde_json::Value`. -/
inductive Json
  | null
  | bool (b : Bool)
  | num (n : Int)
  | str (s : String)
  | arr (xs : List Json)
  | obj (fields : List (String × Json))

/-- `serde(default)` for `metadata`: `serde_json::Value::default()` is `Null`. -/
def Json.default : Json := Json.null

/-- `Invoice` record from main.rs. -/
structure Invoice where
  id : Nat
  amount : Nat
  currency : String
  status : InvoiceStatus
  webhook_url : String
  created_at : Nat
  metadata : Json

/-- `CreateInvoice` request payload from main.rs, after serde defaults have
been applied (`currency` defaults to "BRL", `emit_after_ms` to 5000,
`metadata` to null at the parsing boundary). -/
structure CreateInvoice where
  amount : Nat
  currency : String
  webhook_url : String
  emit_after_ms : Nat
  emit_status : EmitStatus
  metadata : Json

/-- `fn default_currency()` from main.rs. -/
def default_currency : String := "BRL"

/-- `fn default_emit_after_ms()` from main.rs. -/
def default_emit_after_ms : Nat := 5000

/-- `CreateInvoiceResponse` from main.rs. -/
structure CreateInvoiceResponse where
  id : Nat
  status : InvoiceStatus
  amount : Nat
  currency : String
  created_at : Nat
  webhook_url : String
  checkout_url : String
  metadata : Json

/-- `WebhookPayload` from main.rs. -/
structure WebhookPayload where
  event : String
  id : Nat
  status : InvoiceStatus
  amount : Nat
  currency : String
  emitted_at : Nat
  metadata : Json

/-- `AppState` from main.rs: the two shared maps plus the signing secret
(the reqwest `Client` carries no state relevant to the claims). -/
structure AppState where
  invoices : List (Nat × Invoice)
  idempotency : List (String × Nat)
  webhook_secret : String

/-- `DashMap::insert`: insert-at-front; `List.lookup` sees the newest
binding, so this has overwrite semantics. -/
def mapInsert {α β : Type} (k : α) (v : β) (m : List (α × β)) : List (α × β) :=
  (k, v) :: m

/-! ### Signing utility -/

/-- Modelled from the spec: `fn hmac_hex(secret, body)` wraps the external
`hmac`/`sha2` crates (not part of this repository's source), computing the
lowercase-hex HMAC-SHA256 of `body` keyed by `secret`. We model the keyed
hash as a concrete deterministic function of the secret and body bytes —
the spec's contract ("same secret and body always yield the same digest")
— since the crates' internals are outside the repository. -/
def hmac_hex (secret body : String) : String :=
  let mix : Nat → Nat → Nat := fun acc b => (acc * 131 + b) % (2 ^ 64)
  let h := (body.data.map Char.toNat).foldl mix
    ((secret.data.map Char.toNat).foldl mix 5381)
  String.mk (Nat.toDigits 16 h)

/-- `fn map_emit_status` from main.rs. -/
def map_emit_status : EmitStatus → InvoiceStatus
  | .paid => .paid
  | .failed => .failed
  | .canceled => .canceled
  | .expired => .expired
  | .chargeback => .chargeback

/-! ### Header extraction -/

/-- Byte test of `http::HeaderValue::to_str`: visible ASCII or tab. -/
def isVisibleAsciiByte (b : Nat) : Bool :=
  b == 9 || (32 ≤ b && b < 127)

/-- `HeaderValue::to_str().ok()`: `some` of the decoded string iff every
byte is visible ASCII (or tab), else `none`. -/
def headerValueToStr (bytes : List Nat) : Option String :=
  if bytes.all isVisibleAsciiByte then
    some (String.mk (bytes.map Char.ofNat))
  else
    none

/-- `headers.get("Idempotency-Key").and_then(|v| v.to_str().ok())` from
main.rs, over the raw header bytes (`none` = header absent). -/
def getIdempotencyKey (hdr : Option (List Nat)) : Option String :=
  hdr.bind headerValueToStr

/-! ### JSON serialization (serde_json::to_string) -/

/-- serde_json string escaping (the fragment relevant here: backslash,
quote, control characters as \uXXXX for tab/newline/CR, others verbatim). -/
def jsonEscapeChar (c : Char) : String :=
  if c = '"' then "\\\""
  else if c = '\\' then "\\\\"
  else if c = '\n' then "\\n"
  else if c = '\t' then "\\t"
  else if c = '\r' then "\\r"
  else String.mk [c]

/-- Render a JSON string literal as serde_json does. -/
def jsonStringLit (s : String) : String :=
  "\"" ++ String.join (s.data.map jsonEscapeChar) ++ "\""

mutual

/-- Compact serialization of a `Json` value, mirroring
`serde_json::to_string`. -/
def jsonToString : Json → String
  | .null => "null"
  | .bool true => "true"
  | .bool false => "false"
  | .num n => toString n
  | .str s => jsonStringLit s
  | .arr xs => "[" ++ jsonArrToString xs ++ "]"
  | .obj fs => "\x7b" ++ jsonObjToString fs ++ "\x7d"

/-- Comma-separated serialization of array elements. -/
def jsonArrToString : List Json → String
  | [] => ""
  | [x] => jsonToString x
  | x :: y :: xs => jsonToString x ++ "," ++ jsonArrToString (y :: xs)

/-- Comma-separated serialization of object fields. -/
def jsonObjToString : List (String × Json) → String
  | [] => ""
  | [f] => jsonStringLit f.1 ++ ":" ++ jsonToString f.2
  | f :: g :: fs =>
      jsonStringLit f.1 ++ ":" ++ jsonToString f.2 ++ "," ++ jsonObjToString (g :: fs)

end

/-- serde serialization of `InvoiceStatus` (snake_case rename). -/
def invoiceStatusString : InvoiceStatus → String
  | .created => "created"
  | .paid => "paid"
  | .failed => "failed"
  | .canceled => "canceled"
  | .expired => "expired"
  | .chargeback => "chargeback"

/-- Display of a `Uuid` (represented here by its `Nat` stand-in). -/
def uuidString (id : Nat) : String := toString id

/-- `serde_json::to_string(&WebhookPayload { .. })`: struct fields are
serialized in declaration order. For this payload shape serialization
cannot fail, so the `Err` arm of the dispatcher is unreachable and the
serializer is total. -/
def webhookPayloadToJsonString (p : WebhookPayload) : String :=
  "\x7b\"event\":" ++ jsonStringLit p.event ++
  ",\"id\":" ++ jsonStringLit (uuidString p.id) ++
  ",\"status\":" ++ jsonStringLit (invoiceStatusString p.status) ++
  ",\"amount\":" ++ toString p.amount ++
  ",\"currency\":" ++ jsonStringLit p.currency ++
  ",\"emitted_at\":" ++ jsonStringLit (toString p.emitted_at) ++
  ",\"metadata\":" ++ jsonToString p.metadata ++ "\x7d"

/-- `format!("https://checkout.local/invoice/{}", id)` from main.rs. -/
def checkoutUrl (id : Nat) : String :=
  "https://checkout.local/invoice/" ++ uuidString id

/-! ### The dispatcher task -/

/-- The closure captures of the `tokio::spawn`ed block in `create_invoice`:
delay, invoice id, mapped final status, webhook URL and the cloned secret. -/
structure DispatchTask where
  delay : Nat
  id : Nat
  final_status : InvoiceStatus
  webhook_url : String
  secret : String
deriving DecidableEq

/-- The outbound HTTP POST performed by the dispatcher: URL, the three
headers, and the body bytes. -/
structure Delivery where
  url : String
  content_type : String
  x_event : String
  x_signature : String
  body : String

/-- Result of one dispatcher-task execution: the invoice map after the
task, the outbound delivery if one was attempted, and the internal error
logged via `error!` if the task aborted early. -/
structure DispatchOutcome where
  invoices : List (Nat × Invoice)
  delivery : Option Delivery
  internal_error : Option String

/-- Body of the spawned dispatcher task in main.rs (after the sleep):
re-read the invoice, abort with an internal error if absent, otherwise
write back the terminal status, serialize the payload, sign it and attempt
one delivery. `emitted_at` stands for the `Utc::now()` taken inside the
task. -/
def runDispatch (invoices : List (Nat × Invoice)) (task : DispatchTask)
    (emitted_at : Nat) : DispatchOutcome :=
  match invoices.lookup task.id with
  | none =>
      { invoices := invoices
        delivery := none
        internal_error := some "invoice not found when emitting webhook" }
  | some v =>
      let inv : Invoice := { v with status := task.final_status }
      let invoices1 := mapInsert task.id inv invoices
      let body : WebhookPayload :=
        { event := "invoice.updated"
          id := inv.id
          status := inv.status
          amount := inv.amount
          currency := inv.currency
          emitted_at := emitted_at
          metadata := inv.metadata }
      let json_body := webhookPayloadToJsonString body
      let sig := hmac_hex task.secret json_body
      { invoices := invoices1
        delivery := some
          { url := task.webhook_url
            content_type := "application/json"
            x_event := "invoice.updated"
            x_signature := sig
            body := json_body }
        internal_error := none }

/-- Lift a dispatcher run to the whole `AppState`: the task touches only
the invoice map (the idempotency index and secret are untouched). -/
def dispatchStep (s : AppState) (task : DispatchTask) (emitted_at : Nat) : AppState :=
  { s with invoices := (runDispatch s.invoices task emitted_at).invoices }

/-! ### create_invoice handler -/

/-- Result of one `create_invoice` execution: HTTP status code, response
body, the state after the handler returns, and the dispatcher task it
spawned (if any). -/
structure CreateOutcome where
  status_code : Nat
  response : CreateInvoiceResponse
  state : AppState
  spawned : Option DispatchTask

/-- The `Invoice { .. }` literal built in `create_invoice`. -/
def freshInvoice (payload : CreateInvoice) (freshId now : Nat) : Invoice :=
  { id := freshId
    amount := payload.amount
    currency := payload.currency
    status := .created
    webhook_url := payload.webhook_url
    created_at := now
    metadata := payload.metadata }

/-- The fallthrough body of `create_invoice` (lines 191-279 of main.rs):
build the `Created` invoice, insert it, record the idempotency key if the
header decodes, spawn the dispatcher, answer 201. `freshId` stands for
`Uuid::new_v4()` and `now` for `Utc::now()`. -/
def createFresh (s : AppState) (hdr : Option (List Nat)) (payload : CreateInvoice)
    (freshId now : Nat) : CreateOutcome :=
  let invoice : Invoice := freshInvoice payload freshId now
  let invoices1 := mapInsert freshId invoice s.invoices
  let idem1 :=
    match getIdempotencyKey hdr with
    | some key => mapInsert key freshId s.idempotency
    | none => s.idempotency
  let task : DispatchTask :=
    { delay := payload.emit_after_ms
      id := freshId
      final_status := map_emit_status payload.emit_status
      webhook_url := payload.webhook_url
      secret := s.webhook_secret }
  { status_code := 201
    response :=
      { id := freshId
        status := .created
        amount := payload.amount
        currency := payload.currency
        created_at := now
        webhook_url := payload.webhook_url
        checkout_url := checkoutUrl freshId
        metadata := payload.metadata }
    state := { s with invoices := invoices1, idempotency := idem1 }
    spawned := some task }

/-- `async fn create_invoice` from main.rs: the idempotency short-circuit
(answer 200 echoing the stored invoice when the key is claimed and the
invoice is present), else the fresh-creation fallthrough. -/
def create_invoice (s : AppState) (hdr : Option (List Nat)) (payload : CreateInvoice)
    (freshId now : Nat) : CreateOutcome :=
  match getIdempotencyKey hdr with
  | some key =>
      match s.idempotency.lookup key with
      | some existing_id =>
          match s.invoices.lookup existing_id with
          | some inv =>
              { status_code := 200
                response :=
                  { id := inv.id
                    status := inv.status
                    amount := inv.amount
                    currency := inv.currency
                    created_at := inv.created_at
                    webhook_url := inv.webhook_url
                    checkout_url := checkoutUrl inv.id
                    metadata := inv.metadata }
                state := s
                spawned := none }
          | none => createFresh s hdr payload freshId now
      | none => createFresh s hdr payload freshId now
  | none => createFresh s hdr payload freshId now

/-! ### get_invoice handler -/

/-- Body of a `get_invoice` response: the full invoice, or the structured
not-found error object. -/
inductive GetInvoiceResponse
  | ok (inv : Invoice)
  | notFound (error : String) (message : String)

/-- `async fn get_invoice` from main.rs. -/
def get_invoice (s : AppState) (id : Nat) : Nat × GetInvoiceResponse :=
  match s.invoices.lookup id with
  | some inv => (200, .ok inv)
  | none =>
      (404, .notFound "invoice_not_found" ("Invoice " ++ uuidString id ++ " not found"))

/-! ### Map helper lemmas -/

theorem lookup_insert_self {α β : Type} [BEq α] [LawfulBEq α] (k : α) (v : β)
    (m : List (α × β)) : (mapInsert k v m).lookup k = some v := by
  simp [mapInsert, List.lookup]

theorem lookup_insert_ne {α β : Type} [BEq α] [LawfulBEq α] (k j : α) (v : β)
    (m : List (α × β)) (h : j ≠ k) : (mapInsert k v m).lookup j = m.lookup j := by
  have hb : (j == k) = false := beq_eq_false_iff_ne.mpr h
  simp [mapInsert, List.lookup, hb]

/-- Any task spawned by `create_invoice` is exactly the closure built in
the fallthrough body: the payload's delay, the fresh id, the mapped final
status, the payload's webhook URL and the state's secret. -/
theorem create_invoice_spawned (s : AppState) (hdr : Option (List Nat))
    (p : CreateInvoice) (fid cnow : Nat) (t : DispatchTask)
    (hs : (create_invoice s hdr p fid cnow).spawned = some t) :
    t = { delay := p.emit_after_ms
          id := fid
          final_status := map_emit_status p.emit_status
          webhook_url := p.webhook_url
          secret := s.webhook_secret } := by
  unfold create_invoice at hs
  repeat' split at hs
  all_goals
    first
      | (simp only [createFresh, Option.some.injEq] at hs
         first
           | exact hs.symm
           | exact hs)
      | simp at hs

/-! ### Shared concrete fixtures for witnesses -/

/-- A valid creation request (the scenario of spec section 8). -/
def samplePayload : CreateInvoice :=
  { amount := 1000
    currency := "BRL"
    webhook_url := "http://x/hook"
    emit_after_ms := 50
    emit_status := .paid
    metadata := .null }

/-- The state built in `main`: empty maps, default development secret. -/
def initState : AppState :=
  { invoices := [], idempotency := [], webhook_secret := "dev_secret" }

/-- A stored invoice as `create_invoice` would build it (id 7, created at 0). -/
def sampleInvoice : Invoice :=
  { id := 7
    amount := 1000
    currency := "BRL"
    status := .created
    webhook_url := "http://x/hook"
    created_at := 0
    metadata := .null }

/-- The dispatcher task `create_invoice` would spawn for `sampleInvoice`. -/
def sampleTask : DispatchTask :=
  { delay := 50
    id := 7
    final_status := .paid
    webhook_url := "http://x/hook"
    secret := "dev_secret" }

/-- The delivery the dispatcher performs on `[(7, sampleInvoice)]`. -/
def sampleDelivery : Delivery :=
  ((runDispatch [(7, sampleInvoice)] sampleTask 3).delivery).getD
    ⟨"", "", "", "", ""⟩

/-! ### C3: webhook signature correctness -/

/-- C3: whenever a dispatcher run performs a delivery, the `X-Signature`
header it sends equals `hmac_hex` of the process secret captured by the
task and the exact body string delivered in the same request. -/
theorem C3_signature_matches_body (invoices : List (Nat × Invoice))
    (t : DispatchTask) (emitted_at : Nat) (d : Delivery)
    (h : (runDispatch invoices t emitted_at).delivery = some d) :
    d.x_signature = hmac_hex t.secret d.body := by
  unfold runDispatch at h
  cases hl : invoices.lookup t.id with
  | none => rw [hl] at h; simp at h
  | some v =>
      rw [hl] at h
      simp only [Option.some.injEq] at h
      subst h
      rfl

/-- Witness for C3 at a concrete store, task and delivery. -/
theorem C3_signature_matches_body_witness :
    sampleDelivery.x_signature = hmac_hex sampleTask.secret sampleDelivery.body :=
  C3_signature_matches_body [(7, sampleInvoice)] sampleTask 3 sampleDelivery rfl

/-! ### C4: dispatcher write-back frame condition -/

/-- C4: when the invoice is present, the dispatcher writes back exactly the
record it read with only `status` replaced by the task's final status (so
id, amount, currency, webhook_url, created_at and metadata are unchanged),
leaves every other key of the store untouched, and any task spawned by
`create_invoice` carries `map_emit_status` of the request's `emit_status`
as that final status. -/
theorem C4_dispatch_frame (invoices : List (Nat × Invoice)) (t : DispatchTask)
    (emitted_at : Nat) (v : Invoice)
    (h : invoices.lookup t.id = some v) :
    (runDispatch invoices t emitted_at).invoices.lookup t.id
        = some { v with status := t.final_status } ∧
    (∀ j, j ≠ t.id →
      (runDispatch invoices t emitted_at).invoices.lookup j = invoices.lookup j) ∧
    (∀ (s : AppState) (hdr : Option (List Nat)) (p : CreateInvoice) (fid cnow : Nat),
      (create_invoice s hdr p fid cnow).spawned = some t →
      t.final_status = map_emit_status p.emit_status) := by
  refine ⟨?_, ?_, ?_⟩
  · unfold runDispatch
    rw [h]
    exact lookup_insert_self _ _ _
  · intro j hj
    unfold runDispatch
    rw [h]
    exact lookup_insert_ne _ _ _ _ hj
  · intro s hdr p fid cnow hs
    rw [create_invoice_spawned s hdr p fid cnow t hs]

/-- Witness for C4 at a concrete store and task. -/
theorem C4_dispatch_frame_witness :
    (runDispatch [(7, sampleInvoice)] sampleTask 3).invoices.lookup 7
        = some { sampleInvoice with status := sampleTask.final_status } :=
  (C4_dispatch_frame [(7, sampleInvoice)] sampleTask 3 sampleInvoice rfl).1

/-! ### C5: dispatcher aborts cleanly when the invoice is absent -/

/-- C5: if the invoice id is absent when the dispatcher wakes, the task
leaves the store exactly as it was, performs no delivery, and reports only
the logged internal error. -/
theorem C5_absent_invoice_aborts (invoices : List (Nat × Invoice))
    (t : DispatchTask) (emitted_at : Nat)
    (h : invoices.lookup t.id = none) :
    runDispatch invoices t emitted_at =
      { invoices := invoices
        delivery := none
        internal_error := some "invoice not found when emitting webhook" } := by
  unfold runDispatch
  rw [h]

/-- Witness for C5 on the empty store. -/
theorem C5_absent_invoice_aborts_witness :
    runDispatch [] sampleTask 3 =
      { invoices := []
        delivery := none
        internal_error := some "invoice not found when emitting webhook" } :=
  C5_absent_invoice_aborts [] sampleTask 3 rfl

/-! ### C1: response status on creation -/

/-- The bytes of the header value "abc". -/
def abcBytes : List Nat := [97, 98, 99]

/-- First creation under Idempotency-Key "abc". -/
def c1FirstOutcome : CreateOutcome :=
  create_invoice initState (some abcBytes) samplePayload 7 0

/-- The state after the first invoice's dispatcher has fired. -/
def c1DispatchedState : AppState :=
  { c1FirstOutcome.state with
    invoices := (runDispatch c1FirstOutcome.state.invoices
      (c1FirstOutcome.spawned.getD sampleTask) 50).invoices }

/-- C1 counterexample: after a creation under key "abc" whose dispatcher
has already fired, a second creation request with the same key answers with
the stored invoice's terminal status ("paid"), not "created" — refuting
the claim that every valid creation response carries status "created". -/
theorem C1_counterexample :
    (create_invoice c1DispatchedState (some abcBytes) samplePayload 8 60).response.status
      ≠ InvoiceStatus.created := by decide

/-- C1 (amended): a fresh creation (201 path) always answers with status
"created"; an idempotency-key replay (200 path) echoes the stored
invoice's current status, which is the terminal status once the
dispatcher bound to it has fired. -/
theorem C1_amended_response_status (s : AppState) (hdr : Option (List Nat))
    (p : CreateInvoice) (fid now : Nat) :
    ((create_invoice s hdr p fid now).status_code = 201 →
      (create_invoice s hdr p fid now).response.status = .created) ∧
    ((create_invoice s hdr p fid now).status_code = 200 →
      ∃ key eid inv,
        getIdempotencyKey hdr = some key ∧
        s.idempotency.lookup key = some eid ∧
        s.invoices.lookup eid = some inv ∧
        (create_invoice s hdr p fid now).response.status = inv.status) := by
  cases hk : getIdempotencyKey hdr with
  | none =>
      refine ⟨fun _ => ?_, fun h => ?_⟩
      · simp [create_invoice, hk, createFresh]
      · exfalso
        simp [create_invoice, hk, createFresh] at h
  | some key =>
      cases hi : s.idempotency.lookup key with
      | none =>
          refine ⟨fun _ => ?_, fun h => ?_⟩
          · simp [create_invoice, hk, hi, createFresh]
          · exfalso
            simp [create_invoice, hk, hi, createFresh] at h
      | some eid =>
          cases hv : s.invoices.lookup eid with
          | none =>
              refine ⟨fun _ => ?_, fun h => ?_⟩
              · simp [create_invoice, hk, hi, hv, createFresh]
              · exfalso
                simp [create_invoice, hk, hi, hv, createFresh] at h
          | some inv =>
              refine ⟨fun h => ?_, fun _ => ⟨key, eid, inv, rfl, hi, hv, ?_⟩⟩
              · exfalso
                simp [create_invoice, hk, hi, hv] at h
              · simp [create_invoice, hk, hi, hv]

/-- Witness for the amended C1: a fresh creation on the empty state
answers status "created". -/
theorem C1_amended_response_status_witness :
    (create_invoice initState none samplePayload 7 0).response.status
      = InvoiceStatus.created :=
  (C1_amended_response_status initState none samplePayload 7 0).1 rfl

/-! ### C2: idempotent replay -/

/-- C2: starting from a state where `key` is unclaimed, a first creation
under that key answers 201 and spawns a dispatcher; an immediately
following creation with the same key and any payload answers 200, carries
the same invoice id, echoes the first request's amount, and spawns no new
dispatcher — so exactly one dispatcher (hence one webhook delivery
attempt) exists for that key. -/
theorem C2_idempotent_replay (s : AppState) (bytes : List Nat) (key : String)
    (p1 p2 : CreateInvoice) (fid fid2 now now2 : Nat)
    (hkey : getIdempotencyKey (some bytes) = some key)
    (hnew : s.idempotency.lookup key = none) :
    (create_invoice s (some bytes) p1 fid now).status_code = 201 ∧
    (create_invoice (create_invoice s (some bytes) p1 fid now).state
        (some bytes) p2 fid2 now2).status_code = 200 ∧
    (create_invoice (create_invoice s (some bytes) p1 fid now).state
        (some bytes) p2 fid2 now2).response.id
      = (create_invoice s (some bytes) p1 fid now).response.id ∧
    (create_invoice (create_invoice s (some bytes) p1 fid now).state
        (some bytes) p2 fid2 now2).response.amount = p1.amount ∧
    (create_invoice s (some bytes) p1 fid now).spawned ≠ none ∧
    (create_invoice (create_invoice s (some bytes) p1 fid now).state
        (some bytes) p2 fid2 now2).spawned = none := by
  have h1 : create_invoice s (some bytes) p1 fid now
      = createFresh s (some bytes) p1 fid now := by
    simp [create_invoice, hkey, hnew]
  have hst : (createFresh s (some bytes) p1 fid now).state =
      { s with
        invoices := mapInsert fid (freshInvoice p1 fid now) s.invoices
        idempotency := mapInsert key fid s.idempotency } := by
    simp [createFresh, hkey]
  have hk2 : (create_invoice s (some bytes) p1 fid now).state.idempotency.lookup key
      = some fid := by
    rw [h1, hst]
    exact lookup_insert_self _ _ _
  have hv2 : (create_invoice s (some bytes) p1 fid now).state.invoices.lookup fid
      = some (freshInvoice p1 fid now) := by
    rw [h1, hst]
    exact lookup_insert_self _ _ _
  have h2 : create_invoice (create_invoice s (some bytes) p1 fid now).state
      (some bytes) p2 fid2 now2 =
      { status_code := 200
        response :=
          { id := fid
            status := .created
            amount := p1.amount
            currency := p1.currency
            created_at := now
            webhook_url := p1.webhook_url
            checkout_url := checkoutUrl fid
            metadata := p1.metadata }
        state := (create_invoice s (some bytes) p1 fid now).state
        spawned := none } := by
    rw [h1, hst]
    simp [create_invoice, hkey, lookup_insert_self, freshInvoice]
  refine ⟨?_, ?_, ?_, ?_, ?_, ?_⟩
  · rw [h1]; rfl
  · rw [h2]
  · rw [h2, h1]; rfl
  · rw [h2]
  · rw [h1]; simp [createFresh]
  · rw [h2]

/-- A second request payload with a different amount. -/
def samplePayload2 : CreateInvoice :=
  { amount := 2000
    currency := "BRL"
    webhook_url := "http://x/hook"
    emit_after_ms := 50
    emit_status := .failed
    metadata := .null }

/-- Witness for C2 on the empty state with key "abc" and differing
amounts 1000 and 2000. -/
theorem C2_idempotent_replay_witness :
    (create_invoice initState (some abcBytes) samplePayload 7 0).status_code = 201 ∧
    (create_invoice (create_invoice initState (some abcBytes) samplePayload 7 0).state
        (some abcBytes) samplePayload2 8 1).status_code = 200 ∧
    (create_invoice (create_invoice initState (some abcBytes) samplePayload 7 0).state
        (some abcBytes) samplePayload2 8 1).response.id
      = (create_invoice initState (some abcBytes) samplePayload 7 0).response.id ∧
    (create_invoice (create_invoice initState (some abcBytes) samplePayload 7 0).state
        (some abcBytes) samplePayload2 8 1).response.amount = samplePayload.amount ∧
    (create_invoice initState (some abcBytes) samplePayload 7 0).spawned ≠ none ∧
    (create_invoice (create_invoice initState (some abcBytes) samplePayload 7 0).state
        (some abcBytes) samplePayload2 8 1).spawned = none :=
  C2_idempotent_replay initState abcBytes "abc" samplePayload samplePayload2
    7 8 0 1 (by decide) rfl

/-! ### C7: get_invoice -/

/-- C7: `get_invoice` answers only 200 or 404 (never a server error); an
unknown identifier yields exactly the structured not-found body with the
requested identifier embedded in the message, and a known identifier
yields 200 with the full stored record. -/
theorem C7_get_invoice_lookup (s : AppState) (id : Nat) :
    ((get_invoice s id).1 = 200 ∨ (get_invoice s id).1 = 404) ∧
    (s.invoices.lookup id = none →
      get_invoice s id =
        (404, .notFound "invoice_not_found"
          ("Invoice " ++ uuidString id ++ " not found"))) ∧
    (∀ inv, s.invoices.lookup id = some inv → get_invoice s id = (200, .ok inv)) := by
  cases h : s.invoices.lookup id with
  | none =>
      refine ⟨Or.inr ?_, fun _ => ?_, fun inv hinv => ?_⟩
      · simp [get_invoice, h]
      · simp [get_invoice, h]
      · cases hinv
  | some inv0 =>
      refine ⟨Or.inl ?_, fun hn => ?_, fun inv hinv => ?_⟩
      · simp [get_invoice, h]
      · cases hn
      · cases hinv
        simp [get_invoice, h]

/-- Witness for C7: looking up id 5 in the empty store yields the 404
body embedding "5". -/
theorem C7_get_invoice_lookup_witness :
    get_invoice initState 5 =
      (404, .notFound "invoice_not_found" ("Invoice " ++ uuidString 5 ++ " not found")) :=
  (C7_get_invoice_lookup initState 5).2.1 rfl

/-! ### C8: non-decodable Idempotency-Key header -/

/-- C8: if the Idempotency-Key header is present but some byte is not
visible ASCII (so `to_str()` fails), `create_invoice` behaves exactly as
with no header: identical outcome, a fresh 201 creation, and the
idempotency index left untouched. -/
theorem C8_invalid_header_ignored (s : AppState) (bytes : List Nat)
    (p : CreateInvoice) (fid now : Nat)
    (h : bytes.all isVisibleAsciiByte = false) :
    create_invoice s (some bytes) p fid now = create_invoice s none p fid now ∧
    (create_invoice s (some bytes) p fid now).status_code = 201 ∧
    (create_invoice s (some bytes) p fid now).state.idempotency = s.idempotency := by
  have hk : getIdempotencyKey (some bytes) = none := by
    show headerValueToStr bytes = none
    unfold headerValueToStr
    rw [h]
    rfl
  have hnone : getIdempotencyKey (none : Option (List Nat)) = none := rfl
  refine ⟨?_, ?_, ?_⟩
  · simp [create_invoice, createFresh, hk, hnone]
  · simp [create_invoice, createFresh, hk]
  · simp [create_invoice, createFresh, hk]

/-- Witness for C8 with the single byte 200 (not visible ASCII). -/
theorem C8_invalid_header_ignored_witness :
    create_invoice initState (some [200]) samplePayload 7 0
        = create_invoice initState none samplePayload 7 0 ∧
    (create_invoice initState (some [200]) samplePayload 7 0).status_code = 201 ∧
    (create_invoice initState (some [200]) samplePayload 7 0).state.idempotency
        = initState.idempotency :=
  C8_invalid_header_ignored initState [200] samplePayload 7 0 (by decide)

/-! ### Store invariants and further helper lemmas -/

/-- Every invoice id stored as a value in the idempotency index is a key
present in the invoice store. -/
def IdemIndexOk (s : AppState) : Prop :=
  ∀ k i, s.idempotency.lookup k = some i → s.invoices.lookup i ≠ none

theorem lookup_insert_not_none {α β : Type} [BEq α] [LawfulBEq α] [DecidableEq α]
    (k i : α) (v : β) (m : List (α × β)) (h : m.lookup i ≠ none) :
    (mapInsert k v m).lookup i ≠ none := by
  by_cases he : i = k
  · subst he
    rw [lookup_insert_self]
    simp
  · rw [lookup_insert_ne k i v m he]
    exact h

/-- A dispatcher run either leaves the store untouched (absent id) or
overwrites exactly the read record with its status replaced. -/
theorem runDispatch_invoices_cases (invoices : List (Nat × Invoice))
    (t : DispatchTask) (en : Nat) :
    (runDispatch invoices t en).invoices = invoices ∨
    ∃ v, invoices.lookup t.id = some v ∧
      (runDispatch invoices t en).invoices
        = mapInsert t.id { v with status := t.final_status } invoices := by
  cases h : invoices.lookup t.id with
  | none =>
      left
      simp [runDispatch, h]
  | some v =>
      right
      exact ⟨v, rfl, by simp [runDispatch, h]⟩

/-- `create_invoice` either leaves the state untouched (the 200 replay
path) or inserts the fresh invoice and possibly claims the decoded key. -/
theorem create_invoice_state_cases (s : AppState) (hdr : Option (List Nat))
    (p : CreateInvoice) (fid now : Nat) :
    (create_invoice s hdr p fid now).state = s ∨
    ∃ idem1,
      (idem1 = s.idempotency ∨
        ∃ key, getIdempotencyKey hdr = some key ∧
          idem1 = mapInsert key fid s.idempotency) ∧
      (create_invoice s hdr p fid now).state =
        { s with
          invoices := mapInsert fid (freshInvoice p fid now) s.invoices
          idempotency := idem1 } := by
  cases hk : getIdempotencyKey hdr with
  | none =>
      right
      refine ⟨s.idempotency, Or.inl rfl, ?_⟩
      simp [create_invoice, hk, createFresh]
  | some key =>
      cases hi : s.idempotency.lookup key with
      | none =>
          right
          refine ⟨mapInsert key fid s.idempotency, Or.inr ⟨key, rfl, rfl⟩, ?_⟩
          simp [create_invoice, hk, hi, createFresh]
      | some eid =>
          cases hv : s.invoices.lookup eid with
          | none =>
              right
              refine ⟨mapInsert key fid s.idempotency, Or.inr ⟨key, rfl, rfl⟩, ?_⟩
              simp [create_invoice, hk, hi, hv, createFresh]
          | some inv =>
              left
              simp [create_invoice, hk, hi, hv]

/-! ### C6: idempotency entries are never overwritten or removed -/

/-- C6: in any state satisfying the index invariant, an already-set
idempotency entry survives any `create_invoice` execution with its
original invoice id (first request wins), and any dispatcher run leaves
the index untouched. -/
theorem C6_first_request_wins (s : AppState) (hdr : Option (List Nat))
    (p : CreateInvoice) (fid now : Nat) (key : String) (id0 : Nat)
    (hok : IdemIndexOk s)
    (hset : s.idempotency.lookup key = some id0) :
    (create_invoice s hdr p fid now).state.idempotency.lookup key = some id0 ∧
    (∀ t en, (dispatchStep s t en).idempotency.lookup key = some id0) := by
  constructor
  · cases hk : getIdempotencyKey hdr with
    | none =>
        simp [create_invoice, hk, createFresh, hset]
    | some key2 =>
        cases hi : s.idempotency.lookup key2 with
        | none =>
            have hne : key ≠ key2 := by
              intro he
              rw [he, hi] at hset
              cases hset
            have h1 : create_invoice s hdr p fid now
                = createFresh s hdr p fid now := by
              simp [create_invoice, hk, hi]
            have h2 : (createFresh s hdr p fid now).state.idempotency
                = mapInsert key2 fid s.idempotency := by
              simp [createFresh, hk]
            rw [h1, h2, lookup_insert_ne key2 key fid s.idempotency hne]
            exact hset
        | some eid =>
            have hv := hok key2 eid hi
            cases hveq : s.invoices.lookup eid with
            | none => exact absurd hveq hv
            | some inv =>
                have h1 : (create_invoice s hdr p fid now).state = s := by
                  simp [create_invoice, hk, hi, hveq]
                rw [h1]
                exact hset
  · intro t en
    exact hset

/-- A concrete state with one invoice claimed under key "abc". -/
def c6State : AppState :=
  { invoices := [(7, sampleInvoice)]
    idempotency := [("abc", 7)]
    webhook_secret := "dev_secret" }

theorem c6StateOk : IdemIndexOk c6State := by
  intro k i h
  simp only [c6State, List.lookup] at h
  split at h
  · cases h
    simp [List.lookup]
  · cases h

/-- Witness for C6: a second creation under the already-claimed key "abc"
(with a different payload) leaves the entry "abc" → 7 intact. -/
theorem C6_first_request_wins_witness :
    (create_invoice c6State (some abcBytes) samplePayload2 9 2).state.idempotency.lookup "abc"
      = some 7 :=
  (C6_first_request_wins c6State (some abcBytes) samplePayload2 9 2 "abc" 7
    c6StateOk rfl).1

/-! ### C9: index values always name stored invoices -/

/-- C9: the invariant "every id in the idempotency index is a key of the
invoice store" is preserved by every `create_invoice` execution and every
dispatcher run. -/
theorem C9_index_points_to_stored (s : AppState) (hdr : Option (List Nat))
    (p : CreateInvoice) (fid now : Nat) (t : DispatchTask) (en : Nat)
    (hok : IdemIndexOk s) :
    IdemIndexOk (create_invoice s hdr p fid now).state ∧
    IdemIndexOk (dispatchStep s t en) := by
  constructor
  · rcases create_invoice_state_cases s hdr p fid now with h | ⟨idem1, hidem, hst⟩
    · rw [h]
      exact hok
    · rw [hst]
      intro k i hk2
      have hk2' : idem1.lookup k = some i := hk2
      rcases hidem with h1 | ⟨key, _, h1⟩
      · subst h1
        exact lookup_insert_not_none _ _ _ _ (hok k i hk2')
      · subst h1
        by_cases hkk : k = key
        · subst hkk
          rw [lookup_insert_self] at hk2'
          cases hk2'
          show (mapInsert fid (freshInvoice p fid now) s.invoices).lookup fid ≠ none
          rw [lookup_insert_self]
          simp
        · rw [lookup_insert_ne key k fid s.idempotency hkk] at hk2'
          exact lookup_insert_not_none _ _ _ _ (hok k i hk2')
  · intro k i hk2
    have hk2' : s.idempotency.lookup k = some i := hk2
    have hbase := hok k i hk2'
    rcases runDispatch_invoices_cases s.invoices t en with h1 | ⟨v, _, h1⟩
    · show (runDispatch s.invoices t en).invoices.lookup i ≠ none
      rw [h1]
      exact hbase
    · show (runDispatch s.invoices t en).invoices.lookup i ≠ none
      rw [h1]
      exact lookup_insert_not_none _ _ _ _ hbase

/-- Witness for C9 from the boot state, which trivially satisfies the
invariant. -/
theorem C9_index_points_to_stored_witness :
    IdemIndexOk (create_invoice initState (some abcBytes) samplePayload 7 0).state ∧
    IdemIndexOk (dispatchStep initState sampleTask 3) :=
  C9_index_points_to_stored initState (some abcBytes) samplePayload 7 0 sampleTask 3
    (fun k i h => by simp [initState, List.lookup] at h)

/-! ### C10: an invoice status never returns to Created -/

/-- `map_emit_status` never yields the initial status. -/
theorem map_emit_status_ne_created (e : EmitStatus) :
    map_emit_status e ≠ InvoiceStatus.created := by
  cases e <;> simp [map_emit_status]

/-- One atomic transition of the system: a `create_invoice` call with a
fresh uuid (v4 uniqueness made explicit) appending its spawned task to
the pending pool, or the firing of one pending dispatcher task. -/
inductive Step : AppState × List DispatchTask → AppState × List DispatchTask → Prop
  | create (s : AppState) (ts : List DispatchTask) (hdr : Option (List Nat))
      (p : CreateInvoice) (fid now : Nat)
      (hfresh : s.invoices.lookup fid = none) :
      Step (s, ts)
        ((create_invoice s hdr p fid now).state,
          ts ++ (create_invoice s hdr p fid now).spawned.toList)
  | dispatch (s : AppState) (ts : List DispatchTask) (t : DispatchTask) (en : Nat)
      (ht : t ∈ ts) :
      Step (s, ts) (dispatchStep s t en, ts.erase t)

/-- Configurations reachable from the boot state built in `main`
(empty maps, no pending tasks). -/
inductive Reachable : AppState × List DispatchTask → Prop
  | init (secret : String) :
      Reachable ({ invoices := [], idempotency := [], webhook_secret := secret }, [])
  | step {c c' : AppState × List DispatchTask} :
      Reachable c → Step c c' → Reachable c'

/-- In every reachable configuration, every pending dispatcher task
carries a non-Created final status (it was built by `map_emit_status`). -/
theorem reachable_tasks_not_created {c : AppState × List DispatchTask}
    (hr : Reachable c) : ∀ t ∈ c.2, t.final_status ≠ InvoiceStatus.created := by
  induction hr with
  | init secret =>
      intro t ht
      simp at ht
  | step hprev hstep ih =>
      cases hstep with
      | create s ts hdr p fid now hfresh =>
          intro t ht
          rcases List.mem_append.mp ht with h | h
          · exact ih t h
          · cases hsp : (create_invoice s hdr p fid now).spawned with
            | none =>
                rw [hsp] at h
                simp at h
            | some t0 =>
                rw [hsp] at h
                have ht0 : t = t0 := by simpa using h
                subst ht0
                have he := create_invoice_spawned s hdr p fid now t hsp
                rw [he]
                exact map_emit_status_ne_created p.emit_status
      | dispatch s ts t0 en ht0 =>
          intro t ht
          exact ih t (List.mem_of_mem_erase ht)

/-- C10: along any step taken from a reachable configuration, an invoice
whose stored status has left Created keeps a non-Created status: the only
write to an existing invoice is its dispatcher's, whose final status is in
the image of `map_emit_status`, and fresh creations never overwrite an
existing id. -/
theorem C10_status_never_returns_to_created
    (s s' : AppState) (ts ts' : List DispatchTask) (id : Nat) (inv : Invoice)
    (hr : Reachable (s, ts)) (hstep : Step (s, ts) (s', ts'))
    (hid : s.invoices.lookup id = some inv)
    (hnc : inv.status ≠ InvoiceStatus.created) :
    ∃ inv', s'.invoices.lookup id = some inv' ∧
      inv'.status ≠ InvoiceStatus.created := by
  cases hstep with
  | create s ts hdr p fid now hfresh =>
      rcases create_invoice_state_cases s hdr p fid now with h | ⟨idem1, _, hst⟩
      · rw [h]
        exact ⟨inv, hid, hnc⟩
      · rw [hst]
        have hne : id ≠ fid := by
          intro he
          rw [he, hfresh] at hid
          cases hid
        refine ⟨inv, ?_, hnc⟩
        show (mapInsert fid (freshInvoice p fid now) s.invoices).lookup id = some inv
        rw [lookup_insert_ne fid id _ _ hne]
        exact hid
  | dispatch s ts t en ht =>
      rcases runDispatch_invoices_cases s.invoices t en with h1 | ⟨v, _, h1⟩
      · refine ⟨inv, ?_, hnc⟩
        show (runDispatch s.invoices t en).invoices.lookup id = some inv
        rw [h1]
        exact hid
      · by_cases he : id = t.id
        · subst he
          refine ⟨{ v with status := t.final_status }, ?_, ?_⟩
          · show (runDispatch s.invoices t en).invoices.lookup t.id
                = some { v with status := t.final_status }
            rw [h1, lookup_insert_self]
          · exact reachable_tasks_not_created hr t ht
        · refine ⟨inv, ?_, hnc⟩
          show (runDispatch s.invoices t en).invoices.lookup id = some inv
          rw [h1, lookup_insert_ne t.id id _ _ he]
          exact hid

/-- First creation (no idempotency key), spawning one dispatcher. -/
def w10o1 : CreateOutcome := create_invoice initState none samplePayload 7 0

/-- The task that first creation spawned. -/
def w10t1 : DispatchTask := w10o1.spawned.getD sampleTask

/-- State after that dispatcher fired: invoice 7 is paid. -/
def w10s2 : AppState := dispatchStep w10o1.state w10t1 50

/-- The task pool after the dispatcher fired. -/
def w10ts2 : List DispatchTask := ([] ++ w10o1.spawned.toList).erase w10t1

/-- The paid record stored for invoice 7 in `w10s2`. -/
def w10invPaid : Invoice :=
  { freshInvoice samplePayload 7 0 with status := .paid }

/-- Witness for C10: from the reachable configuration where invoice 7 is
already paid, a further fresh creation step keeps its status away from
Created. -/
theorem C10_status_never_returns_to_created_witness :
    ∃ inv', (create_invoice w10s2 none samplePayload 8 60).state.invoices.lookup 7
        = some inv' ∧ inv'.status ≠ InvoiceStatus.created :=
  C10_status_never_returns_to_created w10s2
    (create_invoice w10s2 none samplePayload 8 60).state
    w10ts2
    (w10ts2 ++ (create_invoice w10s2 none samplePayload 8 60).spawned.toList)
    7 w10invPaid
    (Reachable.step
      (Reachable.step (Reachable.init "dev_secret")
        (Step.create initState [] none samplePayload 7 0 rfl))
      (Step.dispatch w10o1.state ([] ++ w10o1.spawned.toList) w10t1 50
        (List.Mem.head _)))
    (Step.create w10s2 w10ts2 none samplePayload 8 60 rfl)
    rfl
    (by decide)

end TickPay
